import Mathlib

/-!
Verification of the curriculum-mastery and revision-scheduling engine of the
exam-tracker repository.  The definitions below are a shallow embedding of the
TypeScript source:

* marks are modelled as rationals (the source stores JS numbers; every value
  produced by the scoring engine is a multiple of 1/4, represented exactly);
* timestamps (ISO strings in the source) are modelled as integers counting
  milliseconds; `addDays`/`diffInDays` mirror the date-fns helpers used by the
  source;
* optional fields (`number | ''` form inputs, optional record fields) are
  modelled with `Option`.

Sources embedded: the `ExamForm` component (scoring, grading, submission
validation), the revision-scheduling effect and `handleToggleTask` in
`App.tsx`, `CurriculumTracker.getStatus`, and the `GSTCountdown` readiness
statistics.
-/

namespace ExamTracker

/-- `ExamStatus` enum from `types.ts`. -/
inductive ExamStatus where
  | upcoming
  | completed
  | cancelled
deriving DecidableEq, Repr

/-- `ExamType` enum from `types.ts`. -/
inductive ExamType where
  | vQB
  | gstQB
  | phExam
  | paperFinal
  | subjectFinal
  | fullMock
deriving DecidableEq, Repr

/-- `Topic` from `types.ts` (the `id`, `isChapter` fields play no role in the
claims; `name` and `isCompleted` are kept). -/
structure Topic where
  name : String
  isCompleted : Bool
deriving DecidableEq, Repr

/-- `ExamSection` from `types.ts`: per-section tallies of a full-mock exam. -/
structure ExamSection where
  name : String
  correct : ℚ
  wrong : ℚ
  total : ℚ
deriving DecidableEq, Repr

/-- `Exam` from `types.ts`, restricted to the fields the derived-status and
statistics logic reads.  Optional numeric fields are `Option ℚ`. -/
structure Exam where
  subject : String
  examType : ExamType
  status : ExamStatus
  topics : List Topic
  totalMarks : Option ℚ
  obtainedMarks : Option ℚ
deriving DecidableEq, Repr

/-- `ChapterProgress` from `types.ts`; ISO-string timestamps become `Option ℤ`
(milliseconds). -/
structure ChapterProgress where
  subject : String
  chapterName : String
  isClassDone : Bool
  isUniQBDone : Bool
  isGSTQBDone : Bool
  completedAt : Option ℤ := none
  firstRevisionAt : Option ℤ := none
  secondRevisionAt : Option ℤ := none
  scheduledFirstRevisionAt : Option ℤ := none
  scheduledSecondRevisionAt : Option ℤ := none
deriving DecidableEq, Repr

/-- Milliseconds in a day, the unit used by the date-fns arithmetic. -/
def dayMs : ℤ := 86400000

/-- date-fns `addDays t d`. -/
def addDays (t : ℤ) (d : ℤ) : ℤ := t + d * dayMs

/-- date-fns `differenceInDays a b`: the number of full days between the two
instants, truncated toward zero (signed). -/
def diffInDays (a b : ℤ) : ℤ := (a - b).tdiv dayMs

/-! ## Scoring engine (`ExamForm` component) -/

/-- `sections.reduce((acc, s) => acc + (s.correct - (s.wrong / 4)), 0)`. -/
def mockObtainedMarks (sections : List ExamSection) : ℚ :=
  sections.foldl (fun acc s => acc + (s.correct - s.wrong / 4)) 0

/-- `sections.reduce((acc, s) => acc + (s.wrong / 4), 0)`. -/
def mockNegativeMarks (sections : List ExamSection) : ℚ :=
  sections.foldl (fun acc s => acc + s.wrong / 4) 0

/-- `sections.reduce((acc, s) => acc + s.total, 0)`. -/
def mockTotalMarks (sections : List ExamSection) : ℚ :=
  sections.foldl (fun acc s => acc + s.total) 0

/-- The `obtainedMarks` memo of `ExamForm`: for a full mock, the per-section
sum; otherwise `correct - wrong/4` when both fields are filled, else 0. -/
def obtainedMarks (examType : ExamType) (sections : List ExamSection)
    (correctAnswers wrongAnswers : Option ℚ) : ℚ :=
  if examType = ExamType.fullMock then
    mockObtainedMarks sections
  else
    match correctAnswers, wrongAnswers with
    | some c, some w => c - w / 4
    | _, _ => 0

/-- The `negativeMarks` memo of `ExamForm`. -/
def negativeMarks (examType : ExamType) (sections : List ExamSection)
    (wrongAnswers : Option ℚ) : ℚ :=
  if examType = ExamType.fullMock then
    mockNegativeMarks sections
  else
    match wrongAnswers with
    | some w => w / 4
    | none => 0

/-- The grades produced by `calculateGrade` (standard scale and the full-mock
scale). -/
inductive Grade where
  | aPlus
  | a
  | aMinus
  | b
  | c
  | f
  | elite
  | superior
  | excellent
  | good
  | average
  | needsWork
deriving DecidableEq, Repr

/-- `calculateGrade` of `ExamForm`: the zero-total guard (`if (!total) return
'F'`) precedes the full-mock dispatch, so a zero total yields `F` for both
exam kinds. -/
def calculateGrade (examType : ExamType) (score total : ℚ) : Grade :=
  if total = 0 then Grade.f
  else
    if examType = ExamType.fullMock then
      if score / total * 100 ≥ 80 then Grade.elite
      else if score / total * 100 ≥ 70 then Grade.superior
      else if score / total * 100 ≥ 60 then Grade.excellent
      else if score / total * 100 ≥ 50 then Grade.good
      else if score / total * 100 ≥ 40 then Grade.average
      else Grade.needsWork
    else
      if score / total * 100 ≥ 90 then Grade.aPlus
      else if score / total * 100 ≥ 80 then Grade.a
      else if score / total * 100 ≥ 70 then Grade.aMinus
      else if score / total * 100 ≥ 60 then Grade.b
      else if score / total * 100 ≥ 50 then Grade.c
      else Grade.f

/-- The lowest grade of each scale, as named by the specification. -/
def lowestGrade (examType : ExamType) : Grade :=
  if examType = ExamType.fullMock then Grade.needsWork else Grade.f

/-- Reference grading function written from the specification's words: with
`percentage = obtainedMarks / totalMarks * 100`, closed-on-the-high-end
thresholds per scale, and — per the claim — the lowest grade of the kind's
scale when the total is zero. -/
def gradeSpec (examType : ExamType) (score total : ℚ) : Grade :=
  if total = 0 then lowestGrade examType
  else
    if examType = ExamType.fullMock then
      if score / total * 100 < 40 then Grade.needsWork
      else if score / total * 100 < 50 then Grade.average
      else if score / total * 100 < 60 then Grade.good
      else if score / total * 100 < 70 then Grade.excellent
      else if score / total * 100 < 80 then Grade.superior
      else Grade.elite
    else
      if score / total * 100 < 50 then Grade.f
      else if score / total * 100 < 60 then Grade.c
      else if score / total * 100 < 70 then Grade.b
      else if score / total * 100 < 80 then Grade.aMinus
      else if score / total * 100 < 90 then Grade.a
      else Grade.aPlus

/-- The amended reference: identical to `gradeSpec` except that a zero total
yields `F` for both scales, matching the source's guard order. -/
def gradeSpecAmended (examType : ExamType) (score total : ℚ) : Grade :=
  if total = 0 then Grade.f
  else gradeSpec examType score total

/-! ## Exam submission (`ExamForm.handleSubmit`) -/

/-- The form state read by `handleSubmit` (the `number | ''` inputs are
`Option ℚ`; `examType` is always populated in the source, which initialises it
to `V.QB`, so its never-taken falsiness check is not modelled). -/
structure ExamFormState where
  subject : String
  examType : ExamType
  topics : List Topic
  totalMarks : Option ℚ
  correctAnswers : Option ℚ
  wrongAnswers : Option ℚ
  sections : List ExamSection
deriving DecidableEq, Repr

/-- The record passed to `onSave` on a successful submission (marking fields
only). -/
structure SavedExam where
  subject : String
  examType : ExamType
  totalMarks : ℚ
  obtainedMarks : ℚ
  negativeMarks : ℚ
  grade : Grade
deriving DecidableEq, Repr

/-- Result of a submission: an error banner message, or a saved record. -/
inductive SubmitResult where
  | error (msg : String)
  | saved (exam : SavedExam)
deriving DecidableEq, Repr

/-- Whether a `SubmitResult` is an error. -/
def SubmitResult.isError : SubmitResult → Bool
  | SubmitResult.error _ => true
  | SubmitResult.saved _ => false

/-- The `isChapterExam` memo: `V.QB`, `GST QB` and `PH EXAM` are chapter
exams. -/
def isChapterExam (examType : ExamType) : Bool :=
  examType = ExamType.vQB || examType = ExamType.gstQB || examType = ExamType.phExam

/-- `finalTotalMarks` of `handleSubmit`: the section-total sum for a full
mock, the `totalMarks` field otherwise (the guard sequence ensures the field
is filled before this value matters). -/
def finalTotalMarks (f : ExamFormState) : ℚ :=
  if f.examType = ExamType.fullMock then mockTotalMarks f.sections
  else f.totalMarks.getD 0

/-- The `obtainedMarks` memo evaluated on the form state. -/
def formObtainedMarks (f : ExamFormState) : ℚ :=
  obtainedMarks f.examType f.sections f.correctAnswers f.wrongAnswers

/-- `ExamForm.handleSubmit`: the guard sequence of the source, in order. -/
def handleSubmit (f : ExamFormState) : SubmitResult :=
  if f.subject = "" then SubmitResult.error "Please select a subject."
  else if isChapterExam f.examType && f.topics.isEmpty then
    SubmitResult.error "Please select at least one chapter."
  else if f.examType ≠ ExamType.fullMock &&
      (f.totalMarks.isNone || f.correctAnswers.isNone || f.wrongAnswers.isNone) then
    SubmitResult.error "Please fill in all marking fields."
  else if formObtainedMarks f > finalTotalMarks f then
    SubmitResult.error "Obtained marks cannot exceed Total Marks."
  else if formObtainedMarks f < -25 then
    SubmitResult.error "Obtained marks are too low."
  else
    SubmitResult.saved
      { subject := f.subject
        examType := f.examType
        totalMarks := finalTotalMarks f
        obtainedMarks := formObtainedMarks f
        negativeMarks := negativeMarks f.examType f.sections f.wrongAnswers
        grade := calculateGrade f.examType (formObtainedMarks f) (finalTotalMarks f) }

/-! ## Chapter completion and the revision scheduler (`App.tsx`) -/

/-- The exams the scheduling effect (and `CurriculumTracker.getChapterExams`)
associates with a `(subject, chapterName)` pair: same subject, status
`COMPLETED`, and some topic named after the chapter. -/
def chapterExamsFor (exams : List Exam) (subject chapterName : String) : List Exam :=
  exams.filter fun e =>
    e.subject = subject && e.status = ExamStatus.completed &&
      e.topics.any fun t => t.name = chapterName

/-- `isCompleted` as derived inside the scheduling effect:
`isClassDone && isUniQBDone && isGSTQBDone && hasTakenExam`. -/
def chapterIsCompleted (exams : List Exam) (p : ChapterProgress) : Bool :=
  p.isClassDone && p.isUniQBDone && p.isGSTQBDone &&
    !(chapterExamsFor exams p.subject p.chapterName).isEmpty

/-- One step of the revision-scheduling effect of `App.tsx` on a single
progress record, with `now` the instant the pass runs. -/
def recomputeChapter (now : ℤ) (exams : List Exam) (p : ChapterProgress) :
    ChapterProgress :=
  let isCompleted := chapterIsCompleted exams p
  let p1 :=
    if isCompleted && p.completedAt.isNone then
      { p with completedAt := some now
               scheduledFirstRevisionAt := some (addDays now 3) }
    else if !isCompleted && p.completedAt.isSome then
      { p with completedAt := none
               scheduledFirstRevisionAt := none
               scheduledSecondRevisionAt := none }
    else p
  match p1.firstRevisionAt with
  | some fr =>
      if p1.scheduledSecondRevisionAt.isNone then
        { p1 with scheduledSecondRevisionAt := some (addDays fr 7) }
      else p1
  | none =>
      if p1.scheduledSecondRevisionAt.isSome then
        { p1 with scheduledSecondRevisionAt := none }
      else p1

/-- The whole scheduler pass: the effect maps the step over every progress
record (returning the previous array when nothing changed, which is the same
list). -/
def recomputePass (now : ℤ) (exams : List Exam) (ps : List ChapterProgress) :
    List ChapterProgress :=
  ps.map (recomputeChapter now exams)

/-- Field-wise restatement of the scheduler rules, written from the claim:
rule 1 stamps `completedAt`/`scheduledFirstRevisionAt`, rule 2 clears the
three timestamps, and rules 3/4 (applied after rules 1/2, as in the source)
keep `scheduledSecondRevisionAt` in step with `firstRevisionAt`. -/
def recomputeChapterSpec (now : ℤ) (exams : List Exam) (p : ChapterProgress) :
    ChapterProgress :=
  let isCompleted := chapterIsCompleted exams p
  { p with
    completedAt :=
      if isCompleted then
        if p.completedAt.isNone then some now else p.completedAt
      else none
    scheduledFirstRevisionAt :=
      if isCompleted then
        if p.completedAt.isNone then some (addDays now 3)
        else p.scheduledFirstRevisionAt
      else if p.completedAt.isSome then none
      else p.scheduledFirstRevisionAt
    scheduledSecondRevisionAt :=
      match p.firstRevisionAt with
      | none => none
      | some fr =>
          if (!isCompleted && p.completedAt.isSome) ||
              p.scheduledSecondRevisionAt.isNone then
            some (addDays fr 7)
          else p.scheduledSecondRevisionAt }

/-! ## Task toggling (`App.tsx` `handleToggleTask`) -/

/-- The task argument of `handleToggleTask` (`'class'` is spelt `cls`). -/
inductive Task where
  | cls
  | uni
  | gst
  | rev1
  | rev2
deriving DecidableEq, Repr

/-- The update `handleToggleTask` applies to an existing progress record. -/
def toggleExisting (now : ℤ) (task : Task) (p : ChapterProgress) : ChapterProgress :=
  match task with
  | Task.cls => { p with isClassDone := !p.isClassDone }
  | Task.uni => { p with isUniQBDone := !p.isUniQBDone }
  | Task.gst => { p with isGSTQBDone := !p.isGSTQBDone }
  | Task.rev1 =>
      { p with firstRevisionAt :=
          if p.firstRevisionAt.isSome then none else some now }
  | Task.rev2 =>
      { p with secondRevisionAt :=
          if p.secondRevisionAt.isSome then none else some now }

/-- The record `handleToggleTask` creates when no record exists yet for the
`(subject, chapterName)` pair. -/
def freshProgress (now : ℤ) (subject chapterName : String) (task : Task) :
    ChapterProgress :=
  { subject := subject
    chapterName := chapterName
    isClassDone := task = Task.cls
    isUniQBDone := task = Task.uni
    isGSTQBDone := task = Task.gst
    firstRevisionAt := if task = Task.rev1 then some now else none
    secondRevisionAt := if task = Task.rev2 then some now else none }

/-- `handleToggleTask`: update (or create) the record for the pair and move it
to the end of the list.  No precondition is checked and no error can be
returned. -/
def handleToggleTask (now : ℤ) (subject chapterName : String) (task : Task)
    (prev : List ChapterProgress) : List ChapterProgress :=
  let updated :=
    match prev.find? (fun p => p.subject = subject && p.chapterName = chapterName) with
    | some existing => toggleExisting now task existing
    | none => freshProgress now subject chapterName task
  (prev.filter fun p => !(p.subject = subject && p.chapterName = chapterName)) ++
    [updated]

/-! ## Derived chapter status (`CurriculumTracker.getStatus`) -/

/-- The test inside `getStatus`'s `hasHighScoredExam`:
`exam.obtainedMarks !== undefined && exam.totalMarks &&
(exam.obtainedMarks / exam.totalMarks) >= 0.8` (JS truthiness of
`totalMarks` excludes both an absent and a zero total). -/
def isHighScored (e : Exam) : Bool :=
  match e.obtainedMarks, e.totalMarks with
  | some o, some t => t ≠ 0 && o / t ≥ 4 / 5
  | _, _ => false

/-- The five values of `statusType`. -/
inductive StatusType where
  | idle
  | onTrack
  | behind
  | completed
  | mastered
deriving DecidableEq, Repr

/-- The record returned by `getStatus` (the warning/reminder strings are
dropped; the claims concern the three classification outputs). -/
structure DerivedStatus where
  isCompleted : Bool
  isMastered : Bool
  statusType : StatusType
deriving DecidableEq, Repr

/-- `CurriculumTracker.getStatus` for the chapter of `p`, evaluated against
the full exam list at instant `now`.  The chapter's exams are
`chapterExamsFor` (same subject, status `COMPLETED`, topic named after the
chapter), exactly as `getChapterExams` computes them. -/
def getStatus (now : ℤ) (exams : List Exam) (p : ChapterProgress) : DerivedStatus :=
  let e := chapterExamsFor exams p.subject p.chapterName
  let isFullyDone := p.isClassDone && p.isUniQBDone && p.isGSTQBDone
  let hasTakenExam := !e.isEmpty
  let hasHighScoredExam := e.any isHighScored
  let isCompleted := isFullyDone && hasTakenExam
  let isMastered := p.firstRevisionAt.isSome && p.secondRevisionAt.isSome &&
    hasHighScoredExam
  let statusType :=
    if isMastered then StatusType.mastered
    else if isCompleted then
      if p.secondRevisionAt.isSome then StatusType.completed
      else
        match p.firstRevisionAt with
        | some fr =>
            if diffInDays (addDays fr 7) now < 0 then StatusType.behind
            else StatusType.onTrack
        | none =>
            match p.completedAt with
            | some ca =>
                if diffInDays (addDays ca 3) now < 0 then StatusType.behind
                else StatusType.onTrack
            | none => StatusType.completed
    else if p.isClassDone then StatusType.onTrack
    else StatusType.idle
  { isCompleted := isCompleted, isMastered := isMastered, statusType := statusType }

/-! ## Readiness statistics (`GSTCountdown`) -/

/-- The exams `GSTCountdown` associates with a progress record: topic named
after the chapter and status `COMPLETED` — the subject is *not* matched
here. -/
def countdownChapterExams (exams : List Exam) (chapterName : String) : List Exam :=
  exams.filter fun e =>
    (e.topics.any fun t => t.name = chapterName) && e.status = ExamStatus.completed

/-- The completion tasks one progress record contributes: one each for
`isClassDone`, `isUniQBDone`, `isGSTQBDone` and for having taken an exam. -/
def completionTasksOf (exams : List Exam) (p : ChapterProgress) : ℕ :=
  (if p.isClassDone then 1 else 0) + (if p.isUniQBDone then 1 else 0) +
    (if p.isGSTQBDone then 1 else 0) +
    (if !(countdownChapterExams exams p.chapterName).isEmpty then 1 else 0)

/-- The mastery tasks one progress record contributes: `firstRevisionAt`,
`secondRevisionAt`, and a high-scored exam. -/
def masteryTasksOf (exams : List Exam) (p : ChapterProgress) : ℕ :=
  (if p.firstRevisionAt.isSome then 1 else 0) +
    (if p.secondRevisionAt.isSome then 1 else 0) +
    (if (countdownChapterExams exams p.chapterName).any isHighScored then 1 else 0)

/-- `completionTasks` accumulated by the `progress.forEach` loop. -/
def statsCompletionTasks (exams : List Exam) (progress : List ChapterProgress) : ℕ :=
  progress.foldl (fun acc p => acc + completionTasksOf exams p) 0

/-- `masteryTasks` accumulated by the `progress.forEach` loop. -/
def statsMasteryTasks (exams : List Exam) (progress : List ChapterProgress) : ℕ :=
  progress.foldl (fun acc p => acc + masteryTasksOf exams p) 0

/-- `completionPct = (completionTasks / (totalChapters * 4)) * 100`, with
`totalChapters` the catalog chapter count. -/
def completionPct (totalChapters : ℕ) (exams : List Exam)
    (progress : List ChapterProgress) : ℚ :=
  (statsCompletionTasks exams progress : ℚ) / (totalChapters * 4) * 100

/-- `masteryPct = (masteryTasks / (totalChapters * 3)) * 100`. -/
def masteryPct (totalChapters : ℕ) (exams : List Exam)
    (progress : List ChapterProgress) : ℚ :=
  (statsMasteryTasks exams progress : ℚ) / (totalChapters * 3) * 100

/-- `combinedPct = ((completionTasks + masteryTasks) / (totalChapters * 7)) *
100`. -/
def combinedPct (totalChapters : ℕ) (exams : List Exam)
    (progress : List ChapterProgress) : ℚ :=
  ((statsCompletionTasks exams progress + statsMasteryTasks exams progress : ℕ) : ℚ) /
    (totalChapters * 7) * 100

/-! ## Helper lemmas -/

/-- A left fold accumulating `f` over a list is the starting value plus the sum
of the mapped list. -/
lemma foldl_add_map_sum {α M : Type} [AddCommMonoid M] (f : α → M) :
    ∀ (l : List α) (a : M), l.foldl (fun acc s => acc + f s) a = a + (l.map f).sum := by
  intro l
  induction l with
  | nil => intro a; simp
  | cons s t ih =>
      intro a
      rw [List.foldl_cons, ih, List.map_cons, List.sum_cons, add_assoc]

/-! ## C1: quarter-mark scoring -/

/-- Claim C1: with the marking fields filled, a non-mock exam scores
`obtainedMarks = correct - wrong/4` and `negativeMarks = wrong/4` exactly; a
full-mock exam scores the sum over sections of `correct - wrong/4`, deducts
the sum of `wrong/4`, and totals the sum of section totals. -/
theorem scoring_quarter_mark_c1 (t : ExamType) (c w : ℚ) (sections : List ExamSection)
    (hc : 0 ≤ c) (hw : 0 ≤ w)
    (hs : ∀ s ∈ sections, 0 ≤ s.correct ∧ 0 ≤ s.wrong)
    (ht : t ≠ ExamType.fullMock) :
    obtainedMarks t sections (some c) (some w) = c - w / 4 ∧
    negativeMarks t sections (some w) = w / 4 ∧
    obtainedMarks ExamType.fullMock sections (some c) (some w) =
      (sections.map fun s => s.correct - s.wrong / 4).sum ∧
    negativeMarks ExamType.fullMock sections (some w) =
      (sections.map fun s => s.wrong / 4).sum ∧
    mockTotalMarks sections = (sections.map fun s => s.total).sum := by
  refine ⟨?_, ?_, ?_, ?_, ?_⟩
  · simp [obtainedMarks, ht]
  · simp [negativeMarks, ht]
  · simp [obtainedMarks, mockObtainedMarks, foldl_add_map_sum]
  · simp [negativeMarks, mockNegativeMarks, foldl_add_map_sum]
  · simp [mockTotalMarks, foldl_add_map_sum]

/-- The two-section full-mock scenario of the specification. -/
def demoSections : List ExamSection :=
  [{ name := "Physics", correct := 20, wrong := 4, total := 25 },
   { name := "Math", correct := 18, wrong := 8, total := 25 }]

/-- Witness for C1 at the specification's scenario: `(20-1) + (18-2) = 35`
obtained, `50` total, `3` deducted, and `20 - 4/4 = 19` for the flat form. -/
theorem scoring_quarter_mark_c1_witness :
    (0 : ℚ) ≤ 20 ∧ (0 : ℚ) ≤ 4 ∧
    obtainedMarks ExamType.vQB demoSections (some 20) (some 4) = 20 - 4 / 4 ∧
    negativeMarks ExamType.vQB demoSections (some 4) = 4 / 4 ∧
    obtainedMarks ExamType.fullMock demoSections (some 20) (some 4) =
      (demoSections.map fun s => s.correct - s.wrong / 4).sum ∧
    negativeMarks ExamType.fullMock demoSections (some 4) =
      (demoSections.map fun s => s.wrong / 4).sum ∧
    mockTotalMarks demoSections = (demoSections.map fun s => s.total).sum := by
  have h := scoring_quarter_mark_c1 ExamType.vQB 20 4 demoSections
    (by norm_num) (by norm_num)
    (by
      intro s hmem
      simp only [demoSections, List.mem_cons, List.not_mem_nil, or_false] at hmem
      rcases hmem with h | h <;> subst h <;> constructor <;> norm_num)
    (by decide)
  exact ⟨by norm_num, by norm_num, h.1, h.2.1, h.2.2.1, h.2.2.2.1, h.2.2.2.2⟩

/-! ## C6: grading scales -/

/-- Counterexample to C6 as stated: for a full-mock exam with `totalMarks = 0`
the source returns `F` (the zero-total guard precedes the mock-scale
dispatch), not the mock scale's lowest grade `Needs Work`. -/
theorem grade_scales_c6_counterexample :
    calculateGrade ExamType.fullMock 0 0 = Grade.f ∧
    gradeSpec ExamType.fullMock 0 0 = Grade.needsWork ∧
    calculateGrade ExamType.fullMock 0 0 ≠ gradeSpec ExamType.fullMock 0 0 := by
  refine ⟨?_, ?_, ?_⟩ <;> simp [calculateGrade, gradeSpec, lowestGrade]

set_option maxHeartbeats 1600000 in
/-- Claim C6 as amended: the source grade function agrees everywhere with the
reference scales (closed thresholds on the high end), except that a zero
total yields `F` for both exam kinds; in particular `grade(90,100) = A+` and
`grade(89.999,100) = A` on the standard scale. -/
theorem grade_scales_c6_amended :
    (∀ (t : ExamType) (score total : ℚ),
      calculateGrade t score total = gradeSpecAmended t score total) ∧
    calculateGrade ExamType.vQB 90 100 = Grade.aPlus ∧
    calculateGrade ExamType.vQB (89999 / 1000) 100 = Grade.a := by
  refine ⟨?_, ?_, ?_⟩
  case refine_2 =>
    unfold calculateGrade
    rw [if_neg (by norm_num : ¬(100 : ℚ) = 0),
      if_neg (by decide : ¬ExamType.vQB = ExamType.fullMock)]
    norm_num
  case refine_3 =>
    unfold calculateGrade
    rw [if_neg (by norm_num : ¬(100 : ℚ) = 0),
      if_neg (by decide : ¬ExamType.vQB = ExamType.fullMock)]
    norm_num
  intro t score total
  unfold calculateGrade gradeSpecAmended gradeSpec lowestGrade
  split_ifs <;> first | rfl | (exfalso; linarith)

/-! ## C5: submission validation -/

/-- Claim C5: with a subject selected, chapters selected when the kind
requires them, and the marking fields filled for a non-mock exam, submission
fails with a validation error exactly when `obtainedMarks > totalMarks` or
`obtainedMarks < -25`, creating no record; otherwise the record is
accepted. -/
theorem submit_validation_c5 (f : ExamFormState)
    (h1 : f.subject ≠ "")
    (h2 : isChapterExam f.examType = true → f.topics ≠ [])
    (h3 : f.examType ≠ ExamType.fullMock →
      f.totalMarks.isSome = true ∧ f.correctAnswers.isSome = true ∧
        f.wrongAnswers.isSome = true) :
    ((handleSubmit f).isError = true ↔
      (finalTotalMarks f < formObtainedMarks f ∨ formObtainedMarks f < -25)) ∧
    (formObtainedMarks f ≤ finalTotalMarks f → -25 ≤ formObtainedMarks f →
      handleSubmit f = SubmitResult.saved
        { subject := f.subject
          examType := f.examType
          totalMarks := finalTotalMarks f
          obtainedMarks := formObtainedMarks f
          negativeMarks := negativeMarks f.examType f.sections f.wrongAnswers
          grade := calculateGrade f.examType (formObtainedMarks f) (finalTotalMarks f) }) := by
  have hg2 : ¬(isChapterExam f.examType && f.topics.isEmpty) = true := by
    simp only [Bool.and_eq_true]
    rintro ⟨ha, hb⟩
    exact h2 ha (List.isEmpty_iff.mp hb)
  have hg3 : ¬((f.examType ≠ ExamType.fullMock : Bool) &&
      (f.totalMarks.isNone || f.correctAnswers.isNone || f.wrongAnswers.isNone)) = true := by
    intro hcontra
    rw [Bool.and_eq_true, decide_eq_true_eq] at hcontra
    obtain ⟨hne, hopt⟩ := hcontra
    obtain ⟨ht, hc, hw⟩ := h3 hne
    rcases hT : f.totalMarks with _ | vt
    · rw [hT] at ht; exact absurd ht (by simp)
    rcases hC : f.correctAnswers with _ | vc
    · rw [hC] at hc; exact absurd hc (by simp)
    rcases hW : f.wrongAnswers with _ | vw
    · rw [hW] at hw; exact absurd hw (by simp)
    rw [hT, hC, hW] at hopt
    simp at hopt
  unfold handleSubmit
  rw [if_neg h1, if_neg hg2, if_neg hg3]
  split_ifs with hA hB
  · exact ⟨by simp [SubmitResult.isError, hA], fun hle _ => absurd hA (not_lt.mpr hle)⟩
  · exact ⟨by simp [SubmitResult.isError, hB], fun _ hge => absurd hB (not_lt.mpr hge)⟩
  · refine ⟨?_, fun _ _ => rfl⟩
    simp only [SubmitResult.isError]
    constructor
    · intro h
      exact absurd h (by simp)
    · rintro (h | h)
      · exact absurd h hA
      · exact absurd h hB

/-- A filled, in-range chapter-quiz submission. -/
def demoForm : ExamFormState :=
  { subject := "Physics"
    examType := ExamType.vQB
    topics := [{ name := "Physics 1st: Vector", isCompleted := true }]
    totalMarks := some 10
    correctAnswers := some 8
    wrongAnswers := some 4
    sections := [] }

/-- Witness for C5: the in-range submission `correct = 8, wrong = 4,
total = 10` (obtained `7`) is accepted. -/
theorem submit_validation_c5_witness :
    demoForm.subject ≠ "" ∧ (handleSubmit demoForm).isError = false := by
  have h := submit_validation_c5 demoForm (by decide)
    (fun _ => by decide)
    (fun _ => by decide)
  refine ⟨by decide, ?_⟩
  have hobt : formObtainedMarks demoForm = 7 := by
    show (8 : ℚ) - 4 / 4 = 7
    norm_num
  have htot : finalTotalMarks demoForm = 10 := rfl
  rw [h.2 (by rw [hobt, htot]; norm_num) (by rw [hobt]; norm_num)]
  rfl

/-! ## C2, C4, C8: the revision scheduler -/

/-- The scheduler step equals its field-wise restatement. -/
lemma recomputeChapter_eq_spec (now : ℤ) (exams : List Exam) (p : ChapterProgress) :
    recomputeChapter now exams p = recomputeChapterSpec now exams p := by
  obtain ⟨subj, name, b1, b2, b3, ca, fr, sr, sf, ss⟩ := p
  unfold recomputeChapter recomputeChapterSpec
  cases hic : chapterIsCompleted exams ⟨subj, name, b1, b2, b3, ca, fr, sr, sf, ss⟩ <;>
    cases ca <;> cases fr <;> cases ss <;> simp [hic]

/-- A second scheduler run (at any later instant) changes nothing. -/
lemma recomputeChapter_idem (now now2 : ℤ) (exams : List Exam) (p : ChapterProgress) :
    recomputeChapter now2 exams (recomputeChapter now exams p) =
      recomputeChapter now exams p := by
  rw [recomputeChapter_eq_spec now exams p,
    recomputeChapter_eq_spec now2 exams (recomputeChapterSpec now exams p)]
  obtain ⟨subj, name, b1, b2, b3, ca, fr, sr, sf, ss⟩ := p
  unfold recomputeChapterSpec chapterIsCompleted
  cases hic : (b1 && b2 && b3 && !(chapterExamsFor exams subj name).isEmpty) <;>
    cases ca <;> cases fr <;> cases ss <;> simp [hic]

/-- Claim C2: one scheduler run applies exactly the four rules — stamping
`completedAt = now` and `scheduledFirstRevisionAt = now + 3 days` when the
derived completion just appeared, clearing the three timestamps when it
disappeared, and (afterwards) keeping `scheduledSecondRevisionAt` equal to
`firstRevisionAt + 7 days` exactly when `firstRevisionAt` is set — leaving
every other field unchanged. -/
theorem scheduler_rules_c2 (now : ℤ) (exams : List Exam) (p : ChapterProgress) :
    recomputeChapter now exams p = recomputeChapterSpec now exams p :=
  recomputeChapter_eq_spec now exams p

/-- Claim C4: the scheduler pass is idempotent — running it again (at any
instant), with no intervening mutation, returns the same records. -/
theorem scheduler_idempotent_c4 (now now2 : ℤ) (exams : List Exam)
    (ps : List ChapterProgress) :
    recomputePass now2 exams (recomputePass now exams ps) =
      recomputePass now exams ps := by
  induction ps with
  | nil => rfl
  | cons q t ih =>
      unfold recomputePass at ih ⊢
      simp only [List.map_cons, List.cons.injEq]
      exact ⟨recomputeChapter_idem now now2 exams q, ih⟩

/-- The exam used by the C8 replay: a completed `Physics` quiz covering
`Vector`. -/
def c8exam : Exam :=
  { subject := "Physics"
    examType := ExamType.vQB
    status := ExamStatus.completed
    topics := [{ name := "Vector", isCompleted := true }]
    totalMarks := none
    obtainedMarks := none }

/-- A replay of public operations: complete the three tasks, let the
scheduler stamp the chapter, do both revisions (scheduler pass in between),
then toggle the first revision back off and run the scheduler. -/
def c8state : List ChapterProgress :=
  recomputePass 9 [c8exam]
    (handleToggleTask 8 "Physics" "Vector" Task.rev1
      (recomputePass 7 [c8exam]
        (handleToggleTask 6 "Physics" "Vector" Task.rev2
          (recomputePass 5 [c8exam]
            (handleToggleTask 4 "Physics" "Vector" Task.rev1
              (recomputePass 3 [c8exam]
                (handleToggleTask 2 "Physics" "Vector" Task.gst
                  (handleToggleTask 1 "Physics" "Vector" Task.uni
                    (handleToggleTask 0 "Physics" "Vector" Task.cls [])))))))))

/-- Counterexample to C8 as stated: after toggling `rev1` off and running
the scheduler, `secondRevisionAt` is still set while `firstRevisionAt` is
unset — toggling the first revision off clears neither `secondRevisionAt`
nor, by itself, anything else; only `scheduledSecondRevisionAt` goes away. -/
theorem revision_dependents_c8_counterexample :
    c8state = [{ subject := "Physics", chapterName := "Vector",
                 isClassDone := true, isUniQBDone := true, isGSTQBDone := true,
                 completedAt := some 3, firstRevisionAt := none,
                 secondRevisionAt := some 6,
                 scheduledFirstRevisionAt := some 259200003,
                 scheduledSecondRevisionAt := none }] ∧
    (c8state.all fun p => !(p.secondRevisionAt.isSome && p.firstRevisionAt.isNone))
      = false := by
  constructor <;> decide

/-- Claim C8 as amended: toggling `rev1` off leaves `secondRevisionAt`
untouched; after a scheduler pass `scheduledSecondRevisionAt` is set exactly
when `firstRevisionAt` is, and when the derived completion is false and
`completedAt` was set the pass clears `completedAt` and
`scheduledFirstRevisionAt`.  The claimed invariant "`secondRevisionAt` only
while `firstRevisionAt` is set" does not hold of reachable states. -/
theorem revision_dependents_c8_amended (now : ℤ) (exams : List Exam)
    (p : ChapterProgress) :
    (toggleExisting now Task.rev1 p).secondRevisionAt = p.secondRevisionAt ∧
    ((recomputeChapter now exams p).scheduledSecondRevisionAt).isSome =
      p.firstRevisionAt.isSome ∧
    (chapterIsCompleted exams p = false → p.completedAt.isSome = true →
      (recomputeChapter now exams p).completedAt = none ∧
      (recomputeChapter now exams p).scheduledFirstRevisionAt = none) := by
  rw [recomputeChapter_eq_spec]
  obtain ⟨subj, name, b1, b2, b3, ca, fr, sr, sf, ss⟩ := p
  refine ⟨rfl, ?_, ?_⟩
  · unfold recomputeChapterSpec
    cases hic : chapterIsCompleted exams ⟨subj, name, b1, b2, b3, ca, fr, sr, sf, ss⟩ <;>
      cases ca <;> cases fr <;> cases ss <;> simp [hic]
  · intro hic hca
    unfold recomputeChapterSpec
    rw [hic]
    cases ca with
    | none => simp at hca
    | some v => simp

/-- Witness for C8's amended implication: a record with `completedAt` set but
no longer completed gets `completedAt` and `scheduledFirstRevisionAt`
cleared. -/
theorem revision_dependents_c8_amended_witness :
    chapterIsCompleted []
        { subject := "Physics", chapterName := "Vector", isClassDone := false,
          isUniQBDone := false, isGSTQBDone := false, completedAt := some 0,
          scheduledFirstRevisionAt := some 259200000 } = false ∧
    (({ subject := "Physics", chapterName := "Vector", isClassDone := false,
          isUniQBDone := false, isGSTQBDone := false, completedAt := some 0,
          scheduledFirstRevisionAt := some 259200000 } : ChapterProgress).completedAt).isSome = true ∧
    (recomputeChapter 9 []
        { subject := "Physics", chapterName := "Vector", isClassDone := false,
          isUniQBDone := false, isGSTQBDone := false, completedAt := some 0,
          scheduledFirstRevisionAt := some 259200000 }).completedAt = none ∧
    (recomputeChapter 9 []
        { subject := "Physics", chapterName := "Vector", isClassDone := false,
          isUniQBDone := false, isGSTQBDone := false, completedAt := some 0,
          scheduledFirstRevisionAt := some 259200000 }).scheduledFirstRevisionAt = none := by
  have h := revision_dependents_c8_amended 9 []
    { subject := "Physics", chapterName := "Vector", isClassDone := false,
      isUniQBDone := false, isGSTQBDone := false, completedAt := some 0,
      scheduledFirstRevisionAt := some 259200000 }
  have h3 := h.2.2 (by decide) (by decide)
  exact ⟨by decide, by decide, h3.1, h3.2⟩

/-! ## C3: derived completion and mastery -/

/-- "Exam covering a chapter", as the specification speaks of it: same
subject, and some selected topic named after the chapter. -/
def coversChapter (e : Exam) (subject chapterName : String) : Prop :=
  e.subject = subject ∧ ∃ t ∈ e.topics, t.name = chapterName

/-- Membership in the per-chapter exam query. -/
lemma mem_chapterExamsFor (exams : List Exam) (subject chapterName : String)
    (e : Exam) :
    e ∈ chapterExamsFor exams subject chapterName ↔
      e ∈ exams ∧ coversChapter e subject chapterName ∧
        e.status = ExamStatus.completed := by
  simp only [chapterExamsFor, List.mem_filter, Bool.and_eq_true, decide_eq_true_eq,
    List.any_eq_true, coversChapter]
  tauto

/-- The query is nonempty exactly when a completed covering exam exists. -/
lemma chapterExamsFor_ne_empty (exams : List Exam) (subject chapterName : String) :
    (!(chapterExamsFor exams subject chapterName).isEmpty) = true ↔
      ∃ e ∈ exams, coversChapter e subject chapterName ∧
        e.status = ExamStatus.completed := by
  rw [Bool.not_eq_true', List.isEmpty_eq_false]
  constructor
  · intro h
    rcases List.exists_mem_of_ne_nil _ h with ⟨e, he⟩
    exact ⟨e, (mem_chapterExamsFor exams subject chapterName e).mp he⟩
  · rintro ⟨e, he, hcov, hst⟩ hnil
    have hmem : e ∈ chapterExamsFor exams subject chapterName :=
      (mem_chapterExamsFor exams subject chapterName e).mpr ⟨he, hcov, hst⟩
    rw [hnil] at hmem
    exact List.not_mem_nil e hmem

/-- The query has a high-scored element exactly when a completed covering
exam with recorded marks, a nonzero total, and a ratio of at least 4/5
exists. -/
lemma chapterExamsFor_high (exams : List Exam) (subject chapterName : String) :
    (chapterExamsFor exams subject chapterName).any isHighScored = true ↔
      ∃ e ∈ exams, coversChapter e subject chapterName ∧
        e.status = ExamStatus.completed ∧
        ∃ o t, e.obtainedMarks = some o ∧ e.totalMarks = some t ∧ t ≠ 0 ∧
          (4 : ℚ) / 5 ≤ o / t := by
  rw [List.any_eq_true]
  constructor
  · rintro ⟨e, he, hhigh⟩
    obtain ⟨hmem, hcov, hst⟩ := (mem_chapterExamsFor exams subject chapterName e).mp he
    refine ⟨e, hmem, hcov, hst, ?_⟩
    unfold isHighScored at hhigh
    rcases ho : e.obtainedMarks with _ | o <;> rw [ho] at hhigh
    · simp at hhigh
    rcases ht : e.totalMarks with _ | t <;> rw [ht] at hhigh
    · simp at hhigh
    rw [Bool.and_eq_true, decide_eq_true_eq, decide_eq_true_eq] at hhigh
    exact ⟨o, t, rfl, rfl, hhigh.1, hhigh.2⟩
  · rintro ⟨e, hmem, hcov, hst, o, t, ho, ht, htne, hge⟩
    refine ⟨e, (mem_chapterExamsFor exams subject chapterName e).mpr ⟨hmem, hcov, hst⟩, ?_⟩
    unfold isHighScored
    rw [ho, ht, Bool.and_eq_true, decide_eq_true_eq, decide_eq_true_eq]
    exact ⟨htne, hge⟩

/-- Claim C3 as amended: `isCompleted` holds exactly when the three task
booleans are set and some covering exam is `Completed`; `isMastered` holds
exactly when both revision timestamps are set and some *completed* covering
exam with recorded marks and a nonzero total scores at least 80 percent (the
source only inspects completed covering exams, and skips exams without
marks). -/
theorem derive_status_c3_amended (now : ℤ) (exams : List Exam) (p : ChapterProgress) :
    ((getStatus now exams p).isCompleted = true ↔
      (p.isClassDone = true ∧ p.isUniQBDone = true ∧ p.isGSTQBDone = true ∧
        ∃ e ∈ exams, coversChapter e p.subject p.chapterName ∧
          e.status = ExamStatus.completed)) ∧
    ((getStatus now exams p).isMastered = true ↔
      (p.firstRevisionAt.isSome = true ∧ p.secondRevisionAt.isSome = true ∧
        ∃ e ∈ exams, coversChapter e p.subject p.chapterName ∧
          e.status = ExamStatus.completed ∧
          ∃ o t, e.obtainedMarks = some o ∧ e.totalMarks = some t ∧ t ≠ 0 ∧
            (4 : ℚ) / 5 ≤ o / t)) := by
  constructor
  · show (_ && _ && _ && _) = true ↔ _
    rw [Bool.and_eq_true, Bool.and_eq_true, Bool.and_eq_true,
      chapterExamsFor_ne_empty]
    tauto
  · show (_ && _ && _) = true ↔ _
    rw [Bool.and_eq_true, Bool.and_eq_true, chapterExamsFor_high]
    tauto

/-- An upcoming covering exam whose recorded ratio reaches 80 percent. -/
def c3exam : Exam :=
  { subject := "Physics"
    examType := ExamType.vQB
    status := ExamStatus.upcoming
    topics := [{ name := "Vector", isCompleted := true }]
    totalMarks := some 10
    obtainedMarks := some 8 }

/-- A progress record with both revision timestamps set. -/
def c3prog : ChapterProgress :=
  { subject := "Physics", chapterName := "Vector", isClassDone := true,
    isUniQBDone := true, isGSTQBDone := true,
    firstRevisionAt := some 0, secondRevisionAt := some 1 }

/-- Counterexample to C3 as stated: both revisions are done and a covering
exam scores `8/10 ≥ 0.8`, yet `isMastered` is false, because the exam's
status is `Upcoming` and the source only consults completed covering
exams. -/
theorem derive_status_c3_counterexample :
    (getStatus 0 [c3exam] c3prog).isMastered = false ∧
    c3prog.firstRevisionAt.isSome = true ∧
    c3prog.secondRevisionAt.isSome = true ∧
    coversChapter c3exam "Physics" "Vector" ∧
    c3exam.obtainedMarks = some 8 ∧ c3exam.totalMarks = some 10 ∧
    (4 : ℚ) / 5 ≤ 8 / 10 := by
  refine ⟨by decide, by decide, by decide, ?_, rfl, rfl, by norm_num⟩
  exact ⟨rfl, { name := "Vector", isCompleted := true }, by decide, rfl⟩

/-! ## C9: statusType precedence -/

/-- The claim's literal priority order: Mastered > Completed > Behind (a
scheduled revision date passed, revision not done) > OnTrack (class done or a
revision scheduled in the future) > Idle. -/
def statusTypeSpecClaim (now : ℤ) (exams : List Exam) (p : ChapterProgress) :
    StatusType :=
  let isCompleted := chapterIsCompleted exams p
  let isMastered := p.firstRevisionAt.isSome && p.secondRevisionAt.isSome &&
    (chapterExamsFor exams p.subject p.chapterName).any isHighScored
  let firstOverdue :=
    match p.scheduledFirstRevisionAt with
    | some d => p.firstRevisionAt.isNone && diffInDays d now < 0
    | none => false
  let secondOverdue :=
    match p.scheduledSecondRevisionAt with
    | some d => p.secondRevisionAt.isNone && diffInDays d now < 0
    | none => false
  let firstUpcoming :=
    match p.scheduledFirstRevisionAt with
    | some d => !(diffInDays d now < 0 : Bool)
    | none => false
  let secondUpcoming :=
    match p.scheduledSecondRevisionAt with
    | some d => !(diffInDays d now < 0 : Bool)
    | none => false
  if isMastered then StatusType.mastered
  else if isCompleted then StatusType.completed
  else if firstOverdue || secondOverdue then StatusType.behind
  else if p.isClassDone || firstUpcoming || secondUpcoming then StatusType.onTrack
  else StatusType.idle

/-- The precedence the source actually implements: the scheduled fields are
never read; within a completed (non-mastered) chapter the pending revision —
due `firstRevisionAt + 7 days` once the first revision is done, otherwise
`completedAt + 3 days` — decides Behind versus OnTrack, overriding Completed;
Completed survives only with the second revision done or no timestamp to
derive a due date from. -/
def statusTypeSpecAmended (now : ℤ) (exams : List Exam) (p : ChapterProgress) :
    StatusType :=
  let isCompleted := chapterIsCompleted exams p
  let isMastered := p.firstRevisionAt.isSome && p.secondRevisionAt.isSome &&
    (chapterExamsFor exams p.subject p.chapterName).any isHighScored
  let pendingDue : Option ℤ :=
    match p.firstRevisionAt with
    | some fr => some (addDays fr 7)
    | none => p.completedAt.map fun ca => addDays ca 3
  if isMastered then StatusType.mastered
  else if isCompleted then
    if p.secondRevisionAt.isSome then StatusType.completed
    else
      match pendingDue with
      | none => StatusType.completed
      | some d =>
          if diffInDays d now < 0 then StatusType.behind else StatusType.onTrack
  else if p.isClassDone then StatusType.onTrack
  else StatusType.idle

/-- Claim C9 as amended: the derived `statusType` follows the corrected
precedence of `statusTypeSpecAmended`. -/
theorem statustype_priority_c9_amended (now : ℤ) (exams : List Exam)
    (p : ChapterProgress) :
    (getStatus now exams p).statusType = statusTypeSpecAmended now exams p := by
  obtain ⟨subj, name, b1, b2, b3, ca, fr, sr, sf, ss⟩ := p
  unfold getStatus statusTypeSpecAmended chapterIsCompleted
  cases hany : (chapterExamsFor exams subj name).any isHighScored <;>
    cases hc : (b1 && b2 && b3 && !(chapterExamsFor exams subj name).isEmpty) <;>
      cases ca <;> cases fr <;> cases sr <;> simp [hany, hc]

/-- A completed `Physics` quiz covering `Vector`, for the C9 scenario. -/
def c9exam : Exam :=
  { subject := "Physics"
    examType := ExamType.vQB
    status := ExamStatus.completed
    topics := [{ name := "Vector", isCompleted := true }]
    totalMarks := none
    obtainedMarks := none }

/-- A completed chapter whose first revision came due five days ago
(`completedAt` eight days ago, `scheduledFirstRevisionAt = completedAt + 3
days`) and was never done. -/
def c9prog : ChapterProgress :=
  { subject := "Physics", chapterName := "Vector", isClassDone := true,
    isUniQBDone := true, isGSTQBDone := true,
    completedAt := some (-691200000),
    scheduledFirstRevisionAt := some (-432000000) }

/-- Counterexample to C9 as stated: on this chapter the source computes
`Behind` (the overdue first revision overrides Completed), while the claim's
strict priority — Completed before Behind for any completed, non-mastered
chapter — yields `Completed`. -/
theorem statustype_priority_c9_counterexample :
    (getStatus 0 [c9exam] c9prog).statusType = StatusType.behind ∧
    statusTypeSpecClaim 0 [c9exam] c9prog = StatusType.completed ∧
    StatusType.behind ≠ StatusType.completed := by
  decide

/-! ## C7: revision toggle preconditions -/

/-- The `disabled` attribute of the first-revision button in
`CurriculumTracker`: `disabled={!isCompleted}`. -/
def rev1Disabled (now : ℤ) (exams : List Exam) (p : ChapterProgress) : Bool :=
  !(getStatus now exams p).isCompleted

/-- The `disabled` attribute of the second-revision button:
`disabled={!p.firstRevisionAt}`. -/
def rev2Disabled (p : ChapterProgress) : Bool :=
  !p.firstRevisionAt.isSome

/-- A chapter with nothing done. -/
def c7prog : ChapterProgress :=
  { subject := "Physics", chapterName := "Vector", isClassDone := false,
    isUniQBDone := false, isGSTQBDone := false }

/-- Counterexample to C7 as stated: `handleToggleTask` rejects nothing — on a
chapter whose derived `isCompleted` is false it happily records the first
revision, and with `firstRevisionAt` unset it records the second; no error
value exists and the record changes. -/
theorem toggle_preconditions_c7_counterexample :
    (getStatus 0 [] c7prog).isCompleted = false ∧
    handleToggleTask 5 "Physics" "Vector" Task.rev1 [c7prog] =
      [{ c7prog with firstRevisionAt := some 5 }] ∧
    c7prog.firstRevisionAt = none ∧
    handleToggleTask 5 "Physics" "Vector" Task.rev2 [c7prog] =
      [{ c7prog with secondRevisionAt := some 5 }] := by
  decide

/-- Claim C7 as amended: the preconditions are enforced only in the UI — the
first-revision button is disabled whenever the chapter's derived
`isCompleted` is false and the second-revision button whenever
`firstRevisionAt` is unset — while the state update itself applies
unconditionally and always changes the record. -/
theorem toggle_preconditions_c7_amended (now now2 : ℤ) (exams : List Exam)
    (p : ChapterProgress)
    (h1 : (getStatus now exams p).isCompleted = false) :
    rev1Disabled now exams p = true ∧
    toggleExisting now2 Task.rev1 p ≠ p ∧
    (p.firstRevisionAt = none →
      rev2Disabled p = true ∧ toggleExisting now2 Task.rev2 p ≠ p) := by
  refine ⟨by simp [rev1Disabled, h1], ?_, fun h2 => ⟨by simp [rev2Disabled, h2], ?_⟩⟩
  · obtain ⟨subj, name, b1, b2, b3, ca, fr, sr, sf, ss⟩ := p
    cases fr <;> simp [toggleExisting]
  · obtain ⟨subj, name, b1, b2, b3, ca, fr, sr, sf, ss⟩ := p
    cases sr <;> simp [toggleExisting]

/-- Witness for C7's amendment on the untouched chapter: the first-revision
button is disabled, yet the toggle still mutates the record. -/
theorem toggle_preconditions_c7_amended_witness :
    (getStatus 0 [] c7prog).isCompleted = false ∧
    rev1Disabled 0 [] c7prog = true ∧
    toggleExisting 5 Task.rev1 c7prog ≠ c7prog ∧
    c7prog.firstRevisionAt = none ∧
    rev2Disabled c7prog = true ∧
    toggleExisting 5 Task.rev2 c7prog ≠ c7prog := by
  have h := toggle_preconditions_c7_amended 0 5 [] c7prog (by decide)
  have h3 := h.2.2 (by decide)
  exact ⟨by decide, h.1, h.2.1, by decide, h3.1, h3.2⟩

/-! ## C10: readiness aggregation -/

/-- Completion tasks of one record, counted the specification's way: the true
ones among the four flags. -/
def completionTasksSpec (exams : List Exam) (p : ChapterProgress) : ℕ :=
  [p.isClassDone, p.isUniQBDone, p.isGSTQBDone,
    !(countdownChapterExams exams p.chapterName).isEmpty].count true

/-- Mastery tasks of one record, counted the specification's way. -/
def masteryTasksSpec (exams : List Exam) (p : ChapterProgress) : ℕ :=
  [p.firstRevisionAt.isSome, p.secondRevisionAt.isSome,
    (countdownChapterExams exams p.chapterName).any isHighScored].count true

/-- The accumulated completion counter is the spec-style sum. -/
lemma statsCompletionTasks_eq (exams : List Exam) (progress : List ChapterProgress) :
    statsCompletionTasks exams progress =
      (progress.map (completionTasksSpec exams)).sum := by
  unfold statsCompletionTasks
  rw [foldl_add_map_sum, zero_add]
  congr 1
  apply List.map_congr_left
  intro p _
  unfold completionTasksOf completionTasksSpec
  cases hE : (countdownChapterExams exams p.chapterName).isEmpty <;>
    cases p.isClassDone <;> cases p.isUniQBDone <;> cases p.isGSTQBDone <;>
      simp [hE, List.count_cons]

/-- The accumulated mastery counter is the spec-style sum. -/
lemma statsMasteryTasks_eq (exams : List Exam) (progress : List ChapterProgress) :
    statsMasteryTasks exams progress =
      (progress.map (masteryTasksSpec exams)).sum := by
  unfold statsMasteryTasks
  rw [foldl_add_map_sum, zero_add]
  congr 1
  apply List.map_congr_left
  intro p _
  unfold masteryTasksOf masteryTasksSpec
  cases hA : (countdownChapterExams exams p.chapterName).any isHighScored <;>
    cases p.firstRevisionAt <;> cases p.secondRevisionAt <;>
      simp [hA, List.count_cons]

/-- Claim C10 as amended: the three percentages are exactly the claimed
formulas with the sums ranging over the *existing* chapter-progress records
(the source iterates `progress.forEach`, not the catalog; a catalog chapter
without a record contributes nothing, and the per-record exam lookup matches
by chapter name only). -/
theorem readiness_aggregator_c10_amended (totalChapters : ℕ) (exams : List Exam)
    (progress : List ChapterProgress) :
    completionPct totalChapters exams progress =
      ((progress.map (completionTasksSpec exams)).sum : ℚ) /
        (totalChapters * 4) * 100 ∧
    masteryPct totalChapters exams progress =
      ((progress.map (masteryTasksSpec exams)).sum : ℚ) /
        (totalChapters * 3) * 100 ∧
    combinedPct totalChapters exams progress =
      (((progress.map (completionTasksSpec exams)).sum +
          (progress.map (masteryTasksSpec exams)).sum : ℕ) : ℚ) /
        (totalChapters * 7) * 100 := by
  refine ⟨?_, ?_, ?_⟩
  · unfold completionPct
    rw [statsCompletionTasks_eq]
  · unfold masteryPct
    rw [statsMasteryTasks_eq]
  · unfold combinedPct
    rw [statsCompletionTasks_eq, statsMasteryTasks_eq]

/-- The claim's completion count for one catalog chapter: look the record up
(lazily absent records contribute no task flags) and add the
has-a-completed-exam flag computed from the exam log alone. -/
def chapterTaskCountClaim (exams : List Exam) (progress : List ChapterProgress)
    (subject chapterName : String) : ℕ :=
  (match progress.find? (fun p => p.subject = subject && p.chapterName = chapterName) with
   | some p =>
       (if p.isClassDone then 1 else 0) + (if p.isUniQBDone then 1 else 0) +
         (if p.isGSTQBDone then 1 else 0)
   | none => 0) +
    (if exams.any (fun e => e.status = ExamStatus.completed &&
        e.subject = subject && e.topics.any fun t => t.name = chapterName)
      then 1 else 0)

/-- `completionPct` the way the claim words it: summed over all catalog
chapters. -/
def completionPctClaim (catalog : List (String × String)) (exams : List Exam)
    (progress : List ChapterProgress) : ℚ :=
  ((catalog.map fun sc => chapterTaskCountClaim exams progress sc.1 sc.2).sum : ℚ) /
    (catalog.length * 4) * 100

/-- A completed `Physics` exam covering the catalog chapter `Vector`. -/
def c10exam : Exam :=
  { subject := "Physics"
    examType := ExamType.vQB
    status := ExamStatus.completed
    topics := [{ name := "Vector", isCompleted := true }]
    totalMarks := none
    obtainedMarks := none }

/-- Counterexample to C10 as stated: with a one-chapter catalog, an empty
progress set, and one completed exam covering the chapter, the claimed
catalog-wide sum gives 25 percent while the source — iterating only the
existing progress records — reports 0. -/
theorem readiness_aggregator_c10_counterexample :
    completionPct 1 [c10exam] [] = 0 ∧
    completionPctClaim [("Physics", "Vector")] [c10exam] [] = 25 ∧
    (0 : ℚ) ≠ 25 := by
  refine ⟨?_, ?_, by norm_num⟩
  · have h0 : statsCompletionTasks [c10exam] [] = 0 := rfl
    unfold completionPct
    rw [h0]
    norm_num
  · have h1 : (List.map
        (fun sc => chapterTaskCountClaim [c10exam] [] sc.1 sc.2)
        [("Physics", "Vector")]).sum = 1 := by decide
    unfold completionPctClaim
    rw [h1]
    norm_num

end ExamTracker
